import Mathlib

set_option maxHeartbeats 1000000

/-!
Shallow embedding of the job-lifecycle and artifact-persistence core of the
SRT-StreamlitUi application (src/app.py).  Python strings are modelled as
Lean strings; character-class primitives (isalnum, whitespace) are modelled
on the ASCII range, matching CPython exactly for code points below 128, and
theorems that depend on character classes restrict inputs to ASCII.
S3 put_object effects are modelled as an ordered write log: each stateful
operation returns the list of (key, body) writes it performs, and a write
log is turned into a store view by applyPuts, where a later write to the
same key shadows an earlier one, as in S3.
-/

namespace SrtApp

/-- Python str.isalnum on one character, ASCII range (matches CPython for
code points below 128). -/
def pyIsAlnum (c : Char) : Bool := c.isAlpha || c.isDigit

/-- The whitespace set of Python str.strip() with no argument, ASCII range:
space, tab, newline, carriage return, vertical tab, form feed, and the
four separator control characters 28 to 31, which CPython also strips. -/
def pyIsSpace (c : Char) : Bool :=
  c == ' ' || c == '\t' || c == '\n' || c == '\r' || c == '\x0b' || c == '\x0c' ||
  c == '\x1c' || c == '\x1d' || c == '\x1e' || c == '\x1f'

/-- Python s.strip(chars): drop characters satisfying p from both ends. -/
def stripChars (p : Char → Bool) (s : String) : String :=
  String.mk (((s.data.dropWhile p).reverse.dropWhile p).reverse)

/-- Truthiness of Python s.strip(): true iff some character of s is not
whitespace. -/
def pyStripTruthy (s : String) : Bool := s.data.any (fun c => !(pyIsSpace c))

/-- os.path.splitext(p)[0] for POSIX paths: drop the extension of the last
path component; the extension starts at the last dot of the component,
provided some earlier character of the component is not a dot. -/
def pySplitextBase (p : String) : String :=
  let revAll := p.data.reverse
  let revComp := revAll.takeWhile (fun c => c != '/')
  let revPre := revAll.dropWhile (fun c => c != '/')
  match revComp.dropWhile (fun c => c != '.') with
  | [] => p
  | _ :: beforeRev =>
    if beforeRev.any (fun c => c != '.') then String.mk ((revPre ++ beforeRev).reverse)
    else p

/-- os.path.basename(p) for POSIX paths: the part after the last slash. -/
def pyBasename (p : String) : String :=
  String.mk ((p.data.reverse.takeWhile (fun c => c != '/')).reverse)

/-- Python s.rsplit(sep, 1)[-1]: the part after the last separator, or the
whole string when the separator does not occur. -/
def pyRsplitLast (sep : Char) (s : String) : String :=
  String.mk ((s.data.reverse.takeWhile (fun c => c != sep)).reverse)

/-- Python s.rsplit(sep, 1)[0]: the part before the last separator, or the
whole string when the separator does not occur. -/
def pyRsplitBase (sep : Char) (s : String) : String :=
  match s.data.reverse.dropWhile (fun c => c != sep) with
  | [] => s
  | _ :: rest => String.mk rest.reverse

/-- Python s.endswith(suffix), computed on the character lists. -/
def pyEndsWith (s suffix : String) : Bool :=
  List.isPrefixOf suffix.data.reverse s.data.reverse

/-- The deterministic part of src/app.py _slugify_name: splitext, keep
alphanumerics and dash and underscore, replace the rest by a dash, strip
dashes and underscores from both ends.  The source computes this value as
base before its final (base.strip or fallback) line. -/
def slugCore (name : String) : String :=
  let base := pySplitextBase name
  let repl := String.mk (base.data.map (fun c =>
    if pyIsAlnum c || c == '-' || c == '_' then c else '-'))
  stripChars (fun c => c == '-' || c == '_') repl

/-- src/app.py _slugify_name.  The source draws the fallback suffix from
uuid4().hex[:8]; that nondeterministic 8-character identifier is the
explicit parameter fresh. -/
def _slugify_name (name : String) (fresh : String) : String :=
  if slugCore name = "" then "file-" ++ fresh else slugCore name

/-- The deterministic part of src/app.py _slugify_user; Python
(name or "user") replaces an empty argument by "user". -/
def userSlugCore (name : String) : String :=
  let src := if name = "" then "user" else name
  let repl := String.mk (src.data.map (fun c =>
    if pyIsAlnum c || c == '-' || c == '_' then c else '-'))
  stripChars (fun c => c == '-' || c == '_') repl

/-- src/app.py _slugify_user.  The source draws the fallback suffix from
uuid4().hex[:6]; that nondeterministic identifier is the parameter fresh. -/
def _slugify_user (name : String) (fresh : String) : String :=
  if userSlugCore name = "" then "user-" ++ fresh else userSlugCore name

/-- The slug function as the specification words it (for comparison with
the _slugify_name embedding above): lower-case the input, replace every
character outside the class letters, digits, dash, underscore by a dash,
strip leading and trailing dashes and underscores, and fall back to
"file-" followed by a random 8-character identifier when empty. -/
def specSlugify (name : String) (fresh : String) : String :=
  let lowered := String.mk (name.data.map Char.toLower)
  let repl := String.mk (lowered.data.map (fun c =>
    if c.isAlpha || c.isDigit || c == '-' || c == '_' then c else '-'))
  let stripped := stripChars (fun c => c == '-' || c == '_') repl
  if stripped = "" then "file-" ++ fresh else stripped

/-- A Python/JSON value, as passed around in the duck-typed dicts of
src/app.py (job output structures and option dicts). -/
inductive PyVal where
  | vstr (s : String)
  | vnum (n : Int)
  | vbool (b : Bool)
  | vnull
  | vlist (xs : List PyVal)
  | vdict (entries : List (String × PyVal))

/-- A Python dict with string keys, as an ordered association list with
unique keys (CPython dicts preserve insertion order). -/
abbrev PyDict := List (String × PyVal)

/-- Python truthiness of a value. -/
def pyTruthy : PyVal → Bool
  | .vstr s => s != ""
  | .vnum n => n != 0
  | .vbool b => b
  | .vnull => false
  | .vlist xs => !xs.isEmpty
  | .vdict entries => !entries.isEmpty

/-- The meta dict assembled by save_transcription_assets before it is
serialized into meta.json (src/app.py lines 217 to 229); json.dumps of a
fixed-shape dict is deterministic, so the structured value stands for the
serialized bytes. -/
structure Meta where
  job_id : String
  filename : String
  created_at : Nat
  status : String
  source_bucket : String
  source_key : String
  options : PyDict
  txt_len : Nat
  srt_len : Nat

/-- The feedback dict serialized by save_feedback_to_s3. -/
structure FeedbackBody where
  job_id : Option String
  filename : String
  username : String
  feedback : String
  created_at : Nat

/-- The body of one stored object: the structured value that json.dumps or
utf-8 encoding would serialize.  Distinct constructors keep the artifact
kinds apart; equal structured values serialize to equal bytes. -/
inductive Body where
  | metaJson (m : Meta)
  | outputJson (entries : PyDict)
  | textUtf8 (s : String)
  | feedbackJson (f : FeedbackBody)

/-- One job record of st.session_state.jobs (record_job plus the bootstrap
insertion).  created_at timestamps are abstracted to Nat clock readings.
pending_options is none when the key is absent or holds None. -/
structure JobRec where
  filename : String
  bucket : String
  key : String
  status : String
  output : Option PyVal
  created_at : Nat
  saved_paths : Option (List (String × String))
  pending_options : Option PyDict

/-- The in-memory job registry st.session_state.jobs: a Python dict from
job id to record, as an ordered association list with unique keys. -/
abbrev Jobs := List (String × JobRec)

/-- Python dict item assignment d[k] = v: replace in place, else append. -/
def mapSet {α : Type} : List (String × α) → String → α → List (String × α)
  | [], k, v => [(k, v)]
  | (k', v') :: rest, k, v =>
    if k' = k then (k, v) :: rest else (k', v') :: mapSet rest k v

/-- The write log of S3 put_object effects: most recent write first. -/
abbrev Store := List (String × Body)

/-- The S3 view of a write log: the most recent body written at a key. -/
def storeGet (store : Store) (k : String) : Option Body := store.lookup k

/-- Perform a list of put_object effects, in order, on a write log. -/
def applyPuts (store : Store) (puts : List (String × Body)) : Store :=
  puts.foldl (fun s kb => kb :: s) store

/-- ROOT_PREFIX of src/app.py. -/
def ROOT_DIR : String := "Srt-model/"

/-- TRANSCRIPTIONS_PREFIX of src/app.py. -/
def TRANSCRIPTIONS_DIR : String := ROOT_DIR ++ "transcriptions/"

/-- FEEDBACK_PREFIX of src/app.py. -/
def FEEDBACK_DIR : String := ROOT_DIR ++ "feedback/"

/-- An s3:// URI for a bucket and key, as built by the f-strings in
src/app.py. -/
def s3Uri (bucket : String) (key : String) : String :=
  "s3://" ++ bucket ++ "/" ++ key

/-- The guard of the conditional artifact writes in
save_transcription_assets: Python
(isinstance(v, str) and v.strip()) as the stripped-non-blank string, none
when absent, not a string, or blank. -/
def strOrNone (v : Option PyVal) : Option String :=
  match v with
  | some (PyVal.vstr s) => if pyStripTruthy s then some s else none
  | _ => none

/-- src/app.py save_transcription_assets.  put_object effects are returned
as the ordered write list; a ClientError raised by put_object at a key is
modelled by fails returning true for that key, which aborts the remaining
statements of the function body (the writes already performed stay in the
returned list) and yields none in place of the written mapping.  The
output argument is the dict passed by the caller (refresh_status_once
guarantees a dict); Python (output or empty dict) is the identity on
dicts because an empty dict is replaced by an empty dict. -/
def save_transcription_assets (bucket : String) (job_id : String) (filename : String)
    (job_record : JobRec) (output : PyDict) (options : PyDict)
    (fresh : String) (fails : String → Bool) :
    List (String × Body) × Option (List (String × String)) :=
  let slug := _slugify_name filename fresh
  let base_dir := TRANSCRIPTIONS_DIR ++ slug ++ "_" ++ job_id
  let basename := pySplitextBase filename
  let meta : Meta :=
    { job_id := job_id
      filename := filename
      created_at := job_record.created_at
      status := job_record.status
      source_bucket := job_record.bucket
      source_key := job_record.key
      options := options
      txt_len := match output.lookup "txt" with
        | some (.vstr s) => s.length
        | _ => 0
      srt_len := match output.lookup "srt" with
        | some (.vstr s) => s.length
        | _ => 0 }
  let meta_key := base_dir ++ "/meta.json"
  let out_key := base_dir ++ "/output.json"
  let srt_key := base_dir ++ "/" ++ basename ++ ".srt"
  let txt_key := base_dir ++ "/" ++ basename ++ ".txt"
  let srtVal : Option String := strOrNone (output.lookup "srt")
  let txtVal : Option String := strOrNone (output.lookup "txt")
  let txtStep := fun (puts : List (String × Body)) (written : List (String × String)) =>
    match txtVal with
    | some s =>
      if fails txt_key then (puts, (none : Option (List (String × String))))
      else (puts ++ [(txt_key, Body.textUtf8 s)],
            some (written ++ [("txt", s3Uri bucket txt_key)]))
    | none => (puts, some written)
  if fails meta_key then ([], none) else
  let puts1 := [(meta_key, Body.metaJson meta)]
  let written1 := [("meta", s3Uri bucket meta_key)]
  if fails out_key then (puts1, none) else
  let puts2 := puts1 ++ [(out_key, Body.outputJson output)]
  let written2 := written1 ++ [("output_json", s3Uri bucket out_key)]
  match srtVal with
  | some s =>
    if fails srt_key then (puts2, none) else
    txtStep (puts2 ++ [(srt_key, Body.textUtf8 s)])
            (written2 ++ [("srt", s3Uri bucket srt_key)])
  | none => txtStep puts2 written2

/-- src/app.py save_feedback_to_s3.  The uuid fallbacks inside the two
slugify calls are the freshFile and freshUser parameters; the created_at
wall-clock reading is the now parameter.  Returns the single put_object
effect and the s3:// location the function returns. -/
def save_feedback_to_s3 (bucket : String) (filename : String) (user_name : String)
    (feedback : String) (job_id : Option String)
    (freshFile : String) (freshUser : String) (now : Nat) :
    (String × Body) × String :=
  let fname_slug := _slugify_name filename freshFile
  let user_slug := _slugify_user user_name freshUser
  let key := FEEDBACK_DIR ++ fname_slug ++ "-" ++ user_slug
  let body : FeedbackBody :=
    { job_id := job_id
      filename := filename
      username := user_name
      feedback := feedback
      created_at := now }
  ((key, Body.feedbackJson body), s3Uri bucket key)

/-- src/app.py _saved_paths_from_base_dir. -/
def _saved_paths_from_base_dir (bucket : String) (base_dir : String)
    (filename : String) : List (String × String) :=
  let basename := pySplitextBase (pyBasename filename)
  [("meta", s3Uri bucket (base_dir ++ "/meta.json")),
   ("output_json", s3Uri bucket (base_dir ++ "/output.json")),
   ("srt", s3Uri bucket (base_dir ++ "/" ++ basename ++ ".srt")),
   ("txt", s3Uri bucket (base_dir ++ "/" ++ basename ++ ".txt"))]

/-- src/app.py update_job: overwrite status and output of an existing
record, no-op when the job id is unknown. -/
def update_job (jobs : Jobs) (job_id : String) (status : String)
    (output : Option PyVal) : Jobs :=
  match jobs.lookup job_id with
  | some r => mapSet jobs job_id { r with status := status, output := output }
  | none => jobs

/-- Python truthiness of the saved_paths field (None or a dict). -/
def savedTruthy : Option (List (String × String)) → Bool
  | none => false
  | some l => !l.isEmpty

/-- A successfully received and parsed status response body: the values of
its status and output keys when present.  A network error, timeout,
non-2xx response (raise_for_status) or unparsable body is modelled by the
whole response being none, since every such exception fires before any
state is touched. -/
structure Resp where
  status? : Option String
  output? : Option PyVal

/-- src/app.py refresh_status_once.  resp models the outcome of the HTTP
GET plus JSON parse; fresh models the uuid fallback inside slugification;
fails models which put_object calls raise.  Returns the new registry, the
new write log, and the returned value (none on a failed poll). -/
def refresh_status_once (bucket : String) (job_id : String) (resp : Option Resp)
    (jobs : Jobs) (store : Store) (fresh : String) (fails : String → Bool) :
    Jobs × Store × Option Resp :=
  match resp with
  | none => (jobs, store, none)
  | some data =>
    let status := data.status?.getD "UNKNOWN"
    let out : PyVal := match data.output? with
      | some v => if pyTruthy v then v else .vdict []
      | none => .vdict []
    let jobs1 := update_job jobs job_id status (some out)
    if status = "COMPLETED" ∨ status = "FAILED" ∨ status = "CANCELLED" then
      match jobs1.lookup job_id with
      | some job =>
        if savedTruthy job.saved_paths then (jobs1, store, some data)
        else
          let options := job.pending_options.getD []
          let outDict : PyDict := match out with | .vdict l => l | _ => []
          match save_transcription_assets bucket job_id job.filename job outDict
              options fresh fails with
          | (puts, some written) =>
            (mapSet jobs1 job_id { job with saved_paths := some written },
             applyPuts store puts, some data)
          | (puts, none) => (jobs1, applyPuts store puts, some data)
      | none => (jobs1, store, some data)
    else (jobs1, store, some data)

/-- The consulted fields of a meta.json body that parsed to a truthy JSON
dict, at the types of the meta.json schema the Artifact Persister writes
(string identifiers and names, numeric timestamp).  Truthy dicts carrying
off-schema field types are outside the modelled input space: the source
would stringify a non-string job_id and raise TypeError inside
os.path.basename on a non-string filename. -/
structure MetaDict where
  job_id : Option String
  filename : Option String
  status : Option String
  created_at : Option Nat
  source_bucket : Option String
  source_key : Option String

/-- The outcome of _safe_json_load on a stored body, as the bootstrapper
consumes it.  falsy: the body fails to parse, or parses to a falsy value
(empty dict, empty list, empty string, zero, false, null) and is skipped
by the if-not-meta test.  truthyNonDict: the body parses to a truthy
value that is not a dict (such as a JSON string or non-empty list), on
which meta.get raises AttributeError.  dict: the body parses to a truthy
dict. -/
inductive BodyParse where
  | falsy
  | truthyNonDict
  | dict (m : MetaDict)

/-- One object of the S3 listing consumed by the bootstrapper: its key,
the parse of its body, and its LastModified timestamp when present. -/
structure S3Obj where
  key : String
  body : BodyParse
  lastModified : Option Nat

/-- The loop body of src/app.py list_existing_transcriptions over the
flattened listing; seen counts inserted records, and reaching the limit
returns early.  The Bool of the result records whether the loop raised:
on a truthy non-dict parse, meta.get raises AttributeError, which escapes
the function (the bootstrap call site wraps it in try/finally with no
except clause), so the scan stops with the insertions made so far kept
in place and the flag set. -/
def bootstrapGo (bucket : String) (now : Nat) (limit : Nat) :
    List S3Obj → Nat → Jobs → Jobs × Bool
  | [], _, jobs => (jobs, false)
  | obj :: rest, seen, jobs =>
    if !(pyEndsWith obj.key "/meta.json") then bootstrapGo bucket now limit rest seen jobs
    else match obj.body with
      | .falsy => bootstrapGo bucket now limit rest seen jobs
      | .truthyNonDict => (jobs, true)
      | .dict meta =>
        let base_dir := pyRsplitBase '/' obj.key
        let job_id := match meta.job_id with
          | some j => if j = "" then pyRsplitLast '_' base_dir else j
          | none => pyRsplitLast '_' base_dir
        let filename := match meta.filename with
          | some f => if f = "" then pyRsplitLast '/' base_dir else f
          | none => pyRsplitLast '/' base_dir
        let status := meta.status.getD "COMPLETED"
        let created_at := match meta.created_at with
          | some t => if t = 0 then (match obj.lastModified with
              | some lm => lm
              | none => now) else t
          | none => match obj.lastModified with
            | some lm => lm
            | none => now
        let source_bucket := meta.source_bucket.getD bucket
        let source_key := meta.source_key.getD ""
        let saved_paths := _saved_paths_from_base_dir bucket base_dir filename
        let jobs1 := mapSet jobs job_id
          { filename := filename
            bucket := source_bucket
            key := source_key
            status := status
            output := none
            created_at := created_at
            saved_paths := some saved_paths
            pending_options := none }
        let seen1 := seen + 1
        if limit ≤ seen1 then (jobs1, false) else bootstrapGo bucket now limit rest seen1 jobs1

/-- src/app.py list_existing_transcriptions.  objs is the flattened S3
listing: the pages under TRANSCRIPTIONS_PREFIX followed by the pages under
the legacy transcriptions/ prefix, in listing order.  Returns the registry
together with the raised flag of bootstrapGo. -/
def list_existing_transcriptions (bucket : String) (now : Nat) (objs : List S3Obj)
    (limit : Nat) (jobs : Jobs) : Jobs × Bool :=
  bootstrapGo bucket now limit objs 0 jobs

/-! Concrete fixtures used by counterexamples and witnesses. -/

/-- A put_object environment in which no write raises. -/
def noFail : String → Bool := fun _ => false

/-- A put_object environment in which exactly the output.json write of the
job with filename a.mp3 and id J1 raises. -/
def failOut : String → Bool :=
  fun k => k == "Srt-model/transcriptions/a_J1/output.json"

/-- A completed record whose artifacts were already persisted. -/
def recCompleted : JobRec :=
  { filename := "a.mp3", bucket := "b", key := "k", status := "COMPLETED",
    output := some (PyVal.vdict []), created_at := 0,
    saved_paths := some [("meta", "s3://b/x/meta.json")], pending_options := none }

/-- A queued record not yet persisted. -/
def recPending : JobRec :=
  { filename := "a.mp3", bucket := "b", key := "k", status := "QUEUED",
    output := none, created_at := 5, saved_paths := none,
    pending_options := none }

/-- The meta.json body of the bootstrap round-trip example of the
specification. -/
def metaAbc : MetaDict :=
  { job_id := some "123", filename := some "abc.wav", status := some "COMPLETED",
    created_at := some 7, source_bucket := none, source_key := none }

/-- A stored object under the legacy prefix whose body does not parse. -/
def corruptObj : S3Obj :=
  { key := "transcriptions/bad_9/meta.json", body := BodyParse.falsy, lastModified := none }

/-- A stored object whose body is parsable JSON but a truthy non-dict,
such as the body "hello": _safe_json_load returns the string, the
falsiness test passes it through, and meta.get raises AttributeError. -/
def badObj : S3Obj :=
  { key := "transcriptions/bad2_7/meta.json", body := BodyParse.truthyNonDict,
    lastModified := none }

/-- The stored object of the bootstrap round-trip example. -/
def abcObj : S3Obj :=
  { key := "transcriptions/abc_123/meta.json", body := BodyParse.dict metaAbc,
    lastModified := some 3 }

/-- A meta.json body carrying none of the consulted keys. -/
def metaEmpty : MetaDict :=
  { job_id := none, filename := none, status := none,
    created_at := none, source_bucket := none, source_key := none }

/-- A second parsable stored object, used to exercise the scan limit. -/
def zzObj : S3Obj :=
  { key := "Srt-model/transcriptions/zz_77/meta.json",
    body := BodyParse.dict metaEmpty, lastModified := none }


/-! Helper lemmas about the map, store and string primitives. -/

theorem lookup_mapSet_self {α : Type} (m : List (String × α)) (k : String) (v : α) :
    (mapSet m k v).lookup k = some v := by
  induction m with
  | nil => simp [mapSet]
  | cons p rest ih =>
    obtain ⟨k', v'⟩ := p
    by_cases h : k' = k
    · simp [mapSet, h]
    · have hne : (k == k') = false := by
        simp
        exact fun e => h e.symm
      simp [mapSet, h, List.lookup, hne, ih]

theorem lookup_mapSet_ne {α : Type} (m : List (String × α)) (k k2 : String) (v : α)
    (h : k2 ≠ k) : (mapSet m k v).lookup k2 = m.lookup k2 := by
  induction m with
  | nil => simp [mapSet, List.lookup, show (k2 == k) = false by simpa using h]
  | cons p rest ih =>
    obtain ⟨k', v'⟩ := p
    by_cases hk : k' = k
    · subst hk
      simp [mapSet, List.lookup, show (k2 == k') = false by simpa using h]
    · by_cases h2 : k2 = k'
      · simp [mapSet, hk, List.lookup, h2]
      · simp [mapSet, hk, List.lookup, show (k2 == k') = false by simpa using h2, ih]

theorem applyPuts_eq (store puts : Store) :
    applyPuts store puts = puts.reverse ++ store := by
  induction puts generalizing store with
  | nil => rfl
  | cons p rest ih =>
    rw [show applyPuts store (p :: rest) = applyPuts (p :: store) rest from rfl, ih]
    simp

theorem lookup_append_left {β : Type} {l : List (String × β)} {k : String} {b : β}
    (h : l.lookup k = some b) (s : List (String × β)) : (l ++ s).lookup k = some b := by
  induction l with
  | nil => simp [List.lookup] at h
  | cons p rest ih =>
    obtain ⟨k', v'⟩ := p
    by_cases h2 : (k == k') = true
    · simp [List.lookup, h2] at h ⊢
      exact h
    · simp only [Bool.not_eq_true] at h2
      simp [List.lookup, h2] at h ⊢
      exact ih h

theorem lookup_append_right {β : Type} {l : List (String × β)} {k : String}
    (h : l.lookup k = none) (s : List (String × β)) : (l ++ s).lookup k = s.lookup k := by
  induction l with
  | nil => simp
  | cons p rest ih =>
    obtain ⟨k', v'⟩ := p
    by_cases h2 : (k == k') = true
    · simp only [List.lookup, h2] at h
      simp at h
    · simp only [Bool.not_eq_true] at h2
      simp only [List.lookup, h2] at h ⊢
      exact ih h

theorem lookup_dup {β : Type} (l s : List (String × β)) (k : String) :
    (l ++ (l ++ s)).lookup k = (l ++ s).lookup k := by
  cases h : l.lookup k with
  | some b => rw [lookup_append_left h, lookup_append_left h]
  | none => rw [lookup_append_right h, lookup_append_right h]

theorem utf8Size_eq_one {c : Char} (h : c.val.toNat < 128) : c.utf8Size = 1 := by
  have h1 : c.val ≤ 127 := by
    rw [UInt32.le_def, BitVec.le_def]
    have h127 : (127 : UInt32).toBitVec.toNat = 127 := rfl
    rw [h127]
    exact Nat.le_of_lt_succ h
  simp [Char.utf8Size, h1]

theorem utf8Len_eq_length {l : List Char} (h : ∀ c ∈ l, c.val.toNat < 128) :
    String.utf8Len l = l.length := by
  induction l with
  | nil => rfl
  | cons c cs ih =>
    have hc : c.utf8Size = 1 := utf8Size_eq_one (h c (by simp))
    have ihh := ih (fun d hd => h d (by simp [hd]))
    simp [hc, ihh]

theorem utf8ByteSize_eq_length {s : String} (h : ∀ c ∈ s.data, c.val.toNat < 128) :
    s.utf8ByteSize = s.length := by
  cases s with
  | mk data =>
    show String.utf8ByteSize.go data = data.length
    have hgo : String.utf8ByteSize.go data = String.utf8Len data := by
      induction data with
      | nil => rfl
      | cons c cs ih => simp [String.utf8ByteSize.go, ih]
    rw [hgo, utf8Len_eq_length h]

theorem mem_of_mem_stripChars {p : Char → Bool} {s : String} {c : Char}
    (h : c ∈ (stripChars p s).data) : c ∈ s.data := by
  unfold stripChars at h
  have h1 : c ∈ ((s.data.dropWhile p).reverse.dropWhile p).reverse := h
  rw [List.mem_reverse] at h1
  have h2 := (List.dropWhile_sublist (p := p)
    (l := (s.data.dropWhile p).reverse)).subset h1
  rw [List.mem_reverse] at h2
  exact (List.dropWhile_sublist (p := p) (l := s.data)).subset h2

/-! Theorems for the claims. -/

/-- C2 counterexample: the slug function of the code does not lower-case
and removes the extension, so it disagrees with the transformation the
claim words (lower-case, replace characters outside the class by a dash,
strip separators) already on the ASCII input "My File (1).mp3". -/
theorem C2_slugify_counterexample :
    _slugify_name "My File (1).mp3" "00000000" = "My-File--1" ∧
    specSlugify "My File (1).mp3" "00000000" = "my-file--1--mp3" ∧
    _slugify_name "My File (1).mp3" "00000000"
      ≠ specSlugify "My File (1).mp3" "00000000" := by
  refine ⟨by decide, by decide, by decide⟩

/-- C2 (amended): _slugify_name drops the extension, keeps alphanumerics
and dash and underscore unchanged (no lower-casing), replaces every other
character by a dash and strips dashes and underscores from both ends; for
ASCII input the result contains only alphanumerics, dash and underscore;
the result is stable across calls (independent of the random fallback)
whenever the deterministic core is non-empty; and on the empty input the
result is the fallback "file-" followed by the random identifier. -/
theorem C2_slugify_characterization (name fresh : String)
    (hname : ∀ c ∈ name.data, c.val.toNat < 128)
    (hfresh : ∀ c ∈ fresh.data, pyIsAlnum c = true) :
    (∀ c ∈ (_slugify_name name fresh).data,
        pyIsAlnum c = true ∨ c = '-' ∨ c = '_') ∧
    (∀ fresh1 fresh2, slugCore name ≠ "" →
        _slugify_name name fresh1 = _slugify_name name fresh2) ∧
    _slugify_name "" fresh = "file-" ++ fresh := by
  refine ⟨?_, ?_, ?_⟩
  · intro c hc
    unfold _slugify_name at hc
    by_cases h : slugCore name = ""
    · rw [if_pos h] at hc
      rw [String.data_append] at hc
      rcases List.mem_append.mp hc with hl | hr
      · have hd : ("file-" : String).data = ['f', 'i', 'l', 'e', '-'] := rfl
        rw [hd] at hl
        fin_cases hl <;> simp [pyIsAlnum, Char.isAlpha, Char.isLower, Char.isUpper]
      · exact Or.inl (hfresh c hr)
    · rw [if_neg h] at hc
      have h2 := mem_of_mem_stripChars (p := fun c => c == '-' || c == '_')
        (s := String.mk ((pySplitextBase name).data.map (fun c =>
          if pyIsAlnum c || c == '-' || c == '_' then c else '-'))) hc
      have h3 : c ∈ (pySplitextBase name).data.map (fun c =>
          if pyIsAlnum c || c == '-' || c == '_' then c else '-') := h2
      rcases List.mem_map.mp h3 with ⟨a, _, ha⟩
      by_cases hcond : (pyIsAlnum a || a == '-' || a == '_') = true
      · rw [if_pos hcond] at ha
        subst ha
        exact or_assoc.mp (by simpa using hcond)
      · rw [if_neg hcond] at ha
        subst ha
        simp
  · intro fresh1 fresh2 h
    unfold _slugify_name
    rw [if_neg h, if_neg h]
  · rfl

/-- C2 witness: the characterization evaluated at the concrete file name of
the specification and a concrete hex identifier. -/
theorem C2_slugify_characterization_witness :
    (∀ c ∈ (_slugify_name "My File (1).mp3" "00000000").data,
        pyIsAlnum c = true ∨ c = '-' ∨ c = '_') ∧
    _slugify_name "" "00000000" = "file-" ++ "00000000" :=
  ⟨(C2_slugify_characterization "My File (1).mp3" "00000000"
      (by decide) (by decide)).1,
   (C2_slugify_characterization "" "00000000" (by decide) (by decide)).2.2⟩

/-- C5: for identical inputs whose filename has a non-empty slug core, two
invocations of the Artifact Persister perform the same writes (same keys,
same bytes) and return the same location mapping, whatever the random
fallback identifiers are; and replaying the same writes leaves every key
of the store view unchanged. -/
theorem C5_persister_idempotent (bucket job_id filename : String)
    (job_record : JobRec) (output options : PyDict) (fresh1 fresh2 : String)
    (fails : String → Bool) (store : Store) (hslug : slugCore filename ≠ "") :
    save_transcription_assets bucket job_id filename job_record output options fresh1 fails
      = save_transcription_assets bucket job_id filename job_record output options fresh2 fails ∧
    (∀ k, storeGet (applyPuts (applyPuts store
          (save_transcription_assets bucket job_id filename job_record output options fresh1 fails).1)
          (save_transcription_assets bucket job_id filename job_record output options fresh2 fails).1) k
        = storeGet (applyPuts store
          (save_transcription_assets bucket job_id filename job_record output options fresh1 fails).1) k) := by
  have hsl : _slugify_name filename fresh1 = _slugify_name filename fresh2 := by
    unfold _slugify_name
    rw [if_neg hslug, if_neg hslug]
  have hEq : save_transcription_assets bucket job_id filename job_record output options fresh1 fails
      = save_transcription_assets bucket job_id filename job_record output options fresh2 fails := by
    unfold save_transcription_assets
    rw [hsl]
  refine ⟨hEq, ?_⟩
  intro k
  rw [← hEq, applyPuts_eq, applyPuts_eq]
  exact lookup_dup _ _ _

/-- C5 witness: the idempotence statement evaluated at a concrete job. -/
theorem C5_persister_idempotent_witness :
    slugCore "talk.mp3" ≠ "" ∧
    save_transcription_assets "b" "J1" "talk.mp3"
        ⟨"talk.mp3", "b", "k", "COMPLETED", none, 0, none, none⟩
        [("txt", PyVal.vstr "hello")] [] "aaaaaaaa" (fun _ => false)
      = save_transcription_assets "b" "J1" "talk.mp3"
        ⟨"talk.mp3", "b", "k", "COMPLETED", none, 0, none, none⟩
        [("txt", PyVal.vstr "hello")] [] "bbbbbbbb" (fun _ => false) :=
  ⟨by decide,
   (C5_persister_idempotent "b" "J1" "talk.mp3"
      ⟨"talk.mp3", "b", "k", "COMPLETED", none, 0, none, none⟩
      [("txt", PyVal.vstr "hello")] [] "aaaaaaaa" "bbbbbbbb" (fun _ => false) []
      (by decide)).1⟩

/-- C8: a failed status poll (network error, timeout, non-2xx response or
unparsable body, all of which fire before any state is touched and are
modelled by the response being none) leaves the registry and the store
exactly as they were and reports the failure by returning none. -/
theorem C8_poll_failure_preserves_state (bucket job_id : String) (jobs : Jobs)
    (store : Store) (fresh : String) (fails : String → Bool) :
    refresh_status_once bucket job_id none jobs store fresh fails
      = (jobs, store, none) := rfl

/-- C9: for a (filename, user) pair with non-empty slug cores the feedback
key is the same on every call, so recording feedback twice leaves the
store view with the second body at that single derived key and every other
key unchanged. -/
theorem C9_feedback_last_write_wins (bucket filename user fb1 fb2 : String)
    (jid1 jid2 : Option String) (ff1 fu1 ff2 fu2 : String) (t1 t2 : Nat)
    (store : Store) (hf : slugCore filename ≠ "") (hu : userSlugCore user ≠ "") :
    (save_feedback_to_s3 bucket filename user fb1 jid1 ff1 fu1 t1).1.1
      = (save_feedback_to_s3 bucket filename user fb2 jid2 ff2 fu2 t2).1.1 ∧
    (save_feedback_to_s3 bucket filename user fb1 jid1 ff1 fu1 t1).2
      = (save_feedback_to_s3 bucket filename user fb2 jid2 ff2 fu2 t2).2 ∧
    (∀ k, storeGet (applyPuts (applyPuts store
            [(save_feedback_to_s3 bucket filename user fb1 jid1 ff1 fu1 t1).1])
            [(save_feedback_to_s3 bucket filename user fb2 jid2 ff2 fu2 t2).1]) k
        = if k = (save_feedback_to_s3 bucket filename user fb2 jid2 ff2 fu2 t2).1.1
          then some (Body.feedbackJson ⟨jid2, filename, user, fb2, t2⟩)
          else storeGet store k) := by
  have hs : ∀ f, _slugify_name filename f = slugCore filename := fun f => by
    unfold _slugify_name
    rw [if_neg hf]
  have hus : ∀ f, _slugify_user user f = userSlugCore user := fun f => by
    unfold _slugify_user
    rw [if_neg hu]
  refine ⟨by simp [save_feedback_to_s3, hs, hus], by simp [save_feedback_to_s3, hs, hus], ?_⟩
  intro k
  show List.lookup k ((save_feedback_to_s3 bucket filename user fb2 jid2 ff2 fu2 t2).1 ::
      (save_feedback_to_s3 bucket filename user fb1 jid1 ff1 fu1 t1).1 :: store) = _
  simp only [save_feedback_to_s3, hs, hus]
  by_cases hk : k = FEEDBACK_DIR ++ slugCore filename ++ "-" ++ userSlugCore user
  · simp [List.lookup, hk]
  · have hbeq : (k == FEEDBACK_DIR ++ slugCore filename ++ "-" ++ userSlugCore user) = false := by
      simpa using hk
    simp [List.lookup, hbeq, hk, storeGet]


/-- C9 witness: last-write-wins evaluated at a concrete filename and user. -/
theorem C9_feedback_last_write_wins_witness :
    slugCore "talk.mp3" ≠ "" ∧ userSlugCore "Ann" ≠ "" ∧
    (save_feedback_to_s3 "b" "talk.mp3" "Ann" "first" none "aaaaaaaa" "cccccc" 1).1.1
      = (save_feedback_to_s3 "b" "talk.mp3" "Ann" "second" (some "J1") "dddddddd" "eeeeee" 2).1.1 :=
  ⟨by decide, by decide,
   (C9_feedback_last_write_wins "b" "talk.mp3" "Ann" "first" "second" none (some "J1")
      "aaaaaaaa" "cccccc" "dddddddd" "eeeeee" 1 2 [] (by decide) (by decide)).1⟩

theorem update_job_lookup (jobs : Jobs) (job_id : String) (st : String)
    (out : Option PyVal) (r : JobRec) (hr : jobs.lookup job_id = some r) :
    update_job jobs job_id st out
      = mapSet jobs job_id { r with status := st, output := out } := by
  unfold update_job
  rw [hr]

/-- C1 (amended): a successful poll always overwrites the status of an
existing record with the status carried by the response, defaulting to
UNKNOWN when the key is absent, even when the stored status was terminal;
terminal states are not shielded from regression. -/
theorem C1_status_always_overwritten (bucket job_id : String) (data : Resp)
    (jobs : Jobs) (store : Store) (fresh : String) (fails : String → Bool)
    (r : JobRec) (hr : jobs.lookup job_id = some r) :
    ∃ r2, ((refresh_status_once bucket job_id (some data) jobs store fresh fails).1).lookup job_id
        = some r2 ∧ r2.status = data.status?.getD "UNKNOWN" := by
  have hupd := update_job_lookup jobs job_id (data.status?.getD "UNKNOWN")
    (some (match data.output? with
      | some v => if pyTruthy v then v else PyVal.vdict []
      | none => PyVal.vdict [])) r hr
  simp only [refresh_status_once]
  rw [hupd]
  by_cases hterm : data.status?.getD "UNKNOWN" = "COMPLETED" ∨
      data.status?.getD "UNKNOWN" = "FAILED" ∨ data.status?.getD "UNKNOWN" = "CANCELLED"
  · rw [if_pos hterm]
    rw [lookup_mapSet_self]
    by_cases hsv : savedTruthy r.saved_paths
    · simp only [hsv]
      exact ⟨_, lookup_mapSet_self _ _ _, rfl⟩
    · simp only [Bool.not_eq_true] at hsv
      simp only [hsv]
      generalize save_transcription_assets bucket job_id r.filename _ _ _ fresh fails = sres
      obtain ⟨puts, w⟩ := sres
      cases w with
      | some written =>
        refine ⟨_, lookup_mapSet_self _ _ _, ?_⟩
        rfl
      | none =>
        refine ⟨_, lookup_mapSet_self _ _ _, ?_⟩
        rfl
  · rw [if_neg hterm]
    exact ⟨_, lookup_mapSet_self _ _ _, rfl⟩

/-- C3 (amended): when the meta.json write succeeds and the output.json
write raises, the exception aborts the remaining writes of that
invocation, so no srt or txt write is attempted; the caller catches it
and reports a warning: meta.json stays written, the record keeps the
polled terminal status, its saved_paths keeps its prior falsy value (so
the whole persistence is retried on a later poll), and the poll still
returns the response. -/
theorem C3_write_failure_aborts_rest (bucket job_id : String) (data : Resp)
    (jobs : Jobs) (store : Store) (fresh : String) (fails : String → Bool)
    (r : JobRec) (hr : jobs.lookup job_id = some r)
    (hsaved : savedTruthy r.saved_paths = false)
    (hterm : data.status?.getD "UNKNOWN" = "COMPLETED" ∨
      data.status?.getD "UNKNOWN" = "FAILED" ∨ data.status?.getD "UNKNOWN" = "CANCELLED")
    (hm : fails (TRANSCRIPTIONS_DIR ++ _slugify_name r.filename fresh ++ "_" ++ job_id ++ "/meta.json") = false)
    (ho : fails (TRANSCRIPTIONS_DIR ++ _slugify_name r.filename fresh ++ "_" ++ job_id ++ "/output.json") = true) :
    ∃ m : Meta,
      (refresh_status_once bucket job_id (some data) jobs store fresh fails).2.1
        = (TRANSCRIPTIONS_DIR ++ _slugify_name r.filename fresh ++ "_" ++ job_id ++ "/meta.json",
           Body.metaJson m) :: store ∧
      m.status = data.status?.getD "UNKNOWN" ∧
      (∃ r2, ((refresh_status_once bucket job_id (some data) jobs store fresh fails).1).lookup job_id
          = some r2 ∧ r2.status = data.status?.getD "UNKNOWN" ∧ r2.saved_paths = r.saved_paths) ∧
      (refresh_status_once bucket job_id (some data) jobs store fresh fails).2.2 = some data := by
  have hupd := update_job_lookup jobs job_id (data.status?.getD "UNKNOWN")
    (some (match data.output? with
      | some v => if pyTruthy v then v else PyVal.vdict []
      | none => PyVal.vdict [])) r hr
  simp only [refresh_status_once]
  rw [hupd, lookup_mapSet_self, if_pos hterm]
  simp only [hsaved]
  simp only [save_transcription_assets, hm, ho]
  simp only [Bool.false_eq_true, if_false, if_true, reduceIte]
  refine ⟨{ job_id := job_id, filename := r.filename, created_at := r.created_at,
            status := data.status?.getD "UNKNOWN", source_bucket := r.bucket, source_key := r.key,
            options := r.pending_options.getD [],
            txt_len := match List.lookup "txt" (match (match data.output? with
                | some v => if pyTruthy v = true then v else PyVal.vdict []
                | none => PyVal.vdict []) with
              | PyVal.vdict l => l
              | _ => []) with
              | some (PyVal.vstr s) => s.length
              | _ => 0,
            srt_len := match List.lookup "srt" (match (match data.output? with
                | some v => if pyTruthy v = true then v else PyVal.vdict []
                | none => PyVal.vdict []) with
              | PyVal.vdict l => l
              | _ => []) with
              | some (PyVal.vstr s) => s.length
              | _ => 0 }, ?_, rfl, ?_, ?_⟩
  · simp [applyPuts]
  · refine ⟨_, lookup_mapSet_self _ _ _, ?_, ?_⟩ <;> rfl
  · trivial

theorem refresh_no_writes_of_saved (bucket job_id : String) (data : Resp)
    (jobs : Jobs) (store : Store) (fresh : String) (fails : String → Bool)
    (r : JobRec) (hr : jobs.lookup job_id = some r)
    (hs : savedTruthy r.saved_paths = true) :
    (refresh_status_once bucket job_id (some data) jobs store fresh fails).2.1 = store := by
  have hupd := update_job_lookup jobs job_id (data.status?.getD "UNKNOWN")
    (some (match data.output? with
      | some v => if pyTruthy v then v else PyVal.vdict []
      | none => PyVal.vdict [])) r hr
  simp only [refresh_status_once]
  rw [hupd, lookup_mapSet_self]
  by_cases hterm : data.status?.getD "UNKNOWN" = "COMPLETED" ∨
      data.status?.getD "UNKNOWN" = "FAILED" ∨ data.status?.getD "UNKNOWN" = "CANCELLED"
  · rw [if_pos hterm]
    simp [hs]
  · rw [if_neg hterm]

/-- C10: a poll reporting a terminal status for a job that is present and
not yet persisted, with the output field missing, still invokes the
Persister: meta.json and output.json holding the empty object are
written, saved_paths is set to their two locations and is truthy, and
every subsequent poll of the job performs no further writes. -/
theorem C10_persist_on_terminal (bucket job_id : String) (data : Resp)
    (jobs : Jobs) (store : Store) (fresh : String) (r : JobRec)
    (hr : jobs.lookup job_id = some r)
    (hsaved : savedTruthy r.saved_paths = false)
    (hout : data.output? = none)
    (hterm : data.status?.getD "UNKNOWN" = "COMPLETED" ∨
      data.status?.getD "UNKNOWN" = "FAILED" ∨ data.status?.getD "UNKNOWN" = "CANCELLED") :
    ∃ m : Meta,
      (refresh_status_once bucket job_id (some data) jobs store fresh (fun _ => false)).2.1
        = (TRANSCRIPTIONS_DIR ++ _slugify_name r.filename fresh ++ "_" ++ job_id ++ "/output.json",
            Body.outputJson [])
          :: (TRANSCRIPTIONS_DIR ++ _slugify_name r.filename fresh ++ "_" ++ job_id ++ "/meta.json",
            Body.metaJson m) :: store ∧
      m.txt_len = 0 ∧ m.srt_len = 0 ∧
      (∃ r2, ((refresh_status_once bucket job_id (some data) jobs store fresh (fun _ => false)).1).lookup job_id
          = some r2
        ∧ r2.saved_paths = some
            [("meta", s3Uri bucket (TRANSCRIPTIONS_DIR ++ _slugify_name r.filename fresh ++ "_" ++ job_id ++ "/meta.json")),
             ("output_json", s3Uri bucket (TRANSCRIPTIONS_DIR ++ _slugify_name r.filename fresh ++ "_" ++ job_id ++ "/output.json"))]
        ∧ savedTruthy r2.saved_paths = true) ∧
      (∀ data2 fresh2 fails2,
          (refresh_status_once bucket job_id (some data2)
            (refresh_status_once bucket job_id (some data) jobs store fresh (fun _ => false)).1
            (refresh_status_once bucket job_id (some data) jobs store fresh (fun _ => false)).2.1
            fresh2 fails2).2.1
          = (refresh_status_once bucket job_id (some data) jobs store fresh (fun _ => false)).2.1) := by
  have hupd := update_job_lookup jobs job_id (data.status?.getD "UNKNOWN")
    (some (match data.output? with
      | some v => if pyTruthy v then v else PyVal.vdict []
      | none => PyVal.vdict [])) r hr
  simp only [hout] at hupd
  simp only [refresh_status_once, hout]
  rw [hupd, lookup_mapSet_self, if_pos hterm]
  simp only [hsaved]
  simp only [save_transcription_assets, List.lookup]
  simp only [Bool.false_eq_true, if_false, reduceIte, applyPuts, List.foldl]
  refine ⟨{ job_id := job_id, filename := r.filename, created_at := r.created_at,
            status := data.status?.getD "UNKNOWN", source_bucket := r.bucket,
            source_key := r.key, options := r.pending_options.getD [],
            txt_len := 0, srt_len := 0 }, rfl, rfl, rfl, ?_, ?_⟩
  · exact ⟨_, lookup_mapSet_self _ _ _, rfl, rfl⟩
  · intro data2 fresh2 fails2
    exact refresh_no_writes_of_saved bucket job_id data2 _ _ fresh2 fails2 _
      (lookup_mapSet_self _ _ _) rfl

/-- C4 (amended): the meta.json written first by a failure-free run of the
Persister records, as sizes, the Python len of output.txt and output.srt,
that is their Unicode code point counts, when they are strings and 0 when
absent or not a string; for ASCII strings this coincides with the UTF-8
byte length. -/
theorem C4_meta_sizes (bucket job_id filename : String) (job_record : JobRec)
    (output options : PyDict) (fresh : String) :
    ∃ m : Meta,
      ((save_transcription_assets bucket job_id filename job_record output options fresh
          (fun _ => false)).1).head?
        = some (TRANSCRIPTIONS_DIR ++ _slugify_name filename fresh ++ "_" ++ job_id ++ "/meta.json",
            Body.metaJson m) ∧
      (∀ s, output.lookup "txt" = some (PyVal.vstr s) → m.txt_len = s.length) ∧
      (∀ s, output.lookup "srt" = some (PyVal.vstr s) → m.srt_len = s.length) ∧
      (∀ s, output.lookup "txt" = some (PyVal.vstr s) →
        (∀ c ∈ s.data, c.val.toNat < 128) → m.txt_len = s.utf8ByteSize) ∧
      (∀ s, output.lookup "srt" = some (PyVal.vstr s) →
        (∀ c ∈ s.data, c.val.toNat < 128) → m.srt_len = s.utf8ByteSize) ∧
      (output.lookup "txt" = none → m.txt_len = 0) ∧
      (output.lookup "srt" = none → m.srt_len = 0) ∧
      (∀ v, output.lookup "txt" = some v → (∀ s, v ≠ PyVal.vstr s) → m.txt_len = 0) ∧
      (∀ v, output.lookup "srt" = some v → (∀ s, v ≠ PyVal.vstr s) → m.srt_len = 0) := by
  refine ⟨{ job_id := job_id, filename := filename, created_at := job_record.created_at,
            status := job_record.status, source_bucket := job_record.bucket,
            source_key := job_record.key, options := options,
            txt_len := match output.lookup "txt" with
              | some (PyVal.vstr s) => s.length
              | _ => 0,
            srt_len := match output.lookup "srt" with
              | some (PyVal.vstr s) => s.length
              | _ => 0 }, ?_, ?_, ?_, ?_, ?_, ?_, ?_, ?_, ?_⟩
  · simp only [save_transcription_assets]
    rcases hsv : strOrNone (output.lookup "srt") with _ | s <;>
      rcases htv : strOrNone (output.lookup "txt") with _ | t <;>
        simp [hsv, htv]
  · intro s h
    simp only [h]
  · intro s h
    simp only [h]
  · intro s h hascii
    simp only [h]
    exact (utf8ByteSize_eq_length hascii).symm
  · intro s h hascii
    simp only [h]
    exact (utf8ByteSize_eq_length hascii).symm
  · intro h
    simp only [h]
  · intro h
    simp only [h]
  · intro v h hne
    simp only [h]
    rcases v with s | n | b | _ | xs | es
    · exact absurd rfl (hne s)
    all_goals rfl
  · intro v h hne
    simp only [h]
    rcases v with s | n | b | _ | xs | es
    · exact absurd rfl (hne s)
    all_goals rfl

theorem strOrNone_some {v : Option PyVal} {s : String} (h : strOrNone v = some s) :
    v = some (PyVal.vstr s) ∧ pyStripTruthy s = true := by
  rcases v with _ | w
  · simp [strOrNone] at h
  · rcases w with t | n | b | _ | xs | es
    · by_cases hst : pyStripTruthy t = true
      · simp [strOrNone, hst] at h
        subst h
        exact ⟨rfl, hst⟩
      · simp only [Bool.not_eq_true] at hst
        simp [strOrNone, hst] at h
    all_goals simp [strOrNone] at h

theorem strOrNone_none {v : Option PyVal} (h : strOrNone v = none)
    {s : String} (hv : v = some (PyVal.vstr s)) : pyStripTruthy s = false := by
  subst hv
  by_cases hst : pyStripTruthy s = true
  · simp [strOrNone, hst] at h
  · simpa using hst

/-- C6 (amended): with no write failures the Persister always writes
meta.json and output.json under the derived directory, writes the srt and
txt artifacts exactly when the corresponding output field is a string
that is non-blank after stripping whitespace (Python truthiness of
.strip()), and the returned mapping lists exactly the locations of the
objects actually written, in order. -/
theorem C6_conditional_writes (bucket job_id filename : String) (job_record : JobRec)
    (output options : PyDict) (fresh : String) :
    ((save_transcription_assets bucket job_id filename job_record output options fresh
        (fun _ => false)).2).isSome = true ∧
    ((save_transcription_assets bucket job_id filename job_record output options fresh
        (fun _ => false)).1).map Prod.fst
      = [TRANSCRIPTIONS_DIR ++ _slugify_name filename fresh ++ "_" ++ job_id ++ "/meta.json",
         TRANSCRIPTIONS_DIR ++ _slugify_name filename fresh ++ "_" ++ job_id ++ "/output.json"]
        ++ (match strOrNone (output.lookup "srt") with
            | some _ => [TRANSCRIPTIONS_DIR ++ _slugify_name filename fresh ++ "_" ++ job_id
                ++ "/" ++ pySplitextBase filename ++ ".srt"]
            | none => [])
        ++ (match strOrNone (output.lookup "txt") with
            | some _ => [TRANSCRIPTIONS_DIR ++ _slugify_name filename fresh ++ "_" ++ job_id
                ++ "/" ++ pySplitextBase filename ++ ".txt"]
            | none => []) ∧
    (("srt" ∈ (((save_transcription_assets bucket job_id filename job_record output options fresh
        (fun _ => false)).2).getD []).map Prod.fst) ↔
      ∃ s, output.lookup "srt" = some (PyVal.vstr s) ∧ pyStripTruthy s = true) ∧
    (("txt" ∈ (((save_transcription_assets bucket job_id filename job_record output options fresh
        (fun _ => false)).2).getD []).map Prod.fst) ↔
      ∃ s, output.lookup "txt" = some (PyVal.vstr s) ∧ pyStripTruthy s = true) ∧
    (((save_transcription_assets bucket job_id filename job_record output options fresh
        (fun _ => false)).2).getD []).map Prod.snd
      = ((save_transcription_assets bucket job_id filename job_record output options fresh
        (fun _ => false)).1).map (fun p => s3Uri bucket p.1) := by
  rcases hsv : strOrNone (output.lookup "srt") with _ | s <;>
    rcases htv : strOrNone (output.lookup "txt") with _ | t
  · refine ⟨?_, ?_, ?_, ?_, ?_⟩ <;>
      simp [save_transcription_assets, hsv, htv]
    · rintro s hs
      exact strOrNone_none hsv hs
    · rintro t ht
      exact strOrNone_none htv ht
  · obtain ⟨ht, hstript⟩ := strOrNone_some htv
    refine ⟨?_, ?_, ?_, ?_, ?_⟩ <;>
      simp [save_transcription_assets, hsv, htv]
    · rintro s hs
      exact strOrNone_none hsv hs
    · exact ⟨t, ht, hstript⟩
  · obtain ⟨hs, hstrips⟩ := strOrNone_some hsv
    refine ⟨?_, ?_, ?_, ?_, ?_⟩ <;>
      simp [save_transcription_assets, hsv, htv]
    · exact ⟨s, hs, hstrips⟩
    · rintro t ht
      exact strOrNone_none htv ht
  · obtain ⟨hs, hstrips⟩ := strOrNone_some hsv
    obtain ⟨ht, hstript⟩ := strOrNone_some htv
    refine ⟨?_, ?_, ?_, ?_, ?_⟩ <;>
      simp [save_transcription_assets, hsv, htv]
    · exact ⟨s, hs, hstrips⟩
    · exact ⟨t, ht, hstript⟩

/-- C7 (amended): for a single listed object whose key ends in meta.json
and whose body parses to a truthy dict, the bootstrapper inserts a record
whose job id comes from the metadata or, when absent or empty, from the
trailing segment of the directory after the last underscore, whose
filename comes from the metadata or the directory name, with output none
and saved paths reconstructed by path convention; an object whose key
does not end in meta.json, or whose body fails to parse or parses to a
falsy value, is skipped silently; an object whose body parses to a truthy
non-dict raises AttributeError, aborting the scan with the registry as it
was; and with the scan limit reached after one insertion the rest of the
listing is ignored. -/
theorem C7_bootstrap :
    (∀ (bucket : String) (now limit : Nat) (jobs : Jobs) (key : String)
        (meta : MetaDict) (lm : Option Nat), pyEndsWith key "/meta.json" = true →
      ∃ jid rec, list_existing_transcriptions bucket now [⟨key, BodyParse.dict meta, lm⟩] limit jobs
          = (mapSet jobs jid rec, false)
        ∧ rec.output = none
        ∧ rec.saved_paths
            = some (_saved_paths_from_base_dir bucket (pyRsplitBase '/' key) rec.filename)
        ∧ rec.status = meta.status.getD "COMPLETED"
        ∧ (∀ j, meta.job_id = some j → j ≠ "" → jid = j)
        ∧ (meta.job_id = none ∨ meta.job_id = some "" →
            jid = pyRsplitLast '_' (pyRsplitBase '/' key))
        ∧ (∀ f, meta.filename = some f → f ≠ "" → rec.filename = f)
        ∧ (meta.filename = none ∨ meta.filename = some "" →
            rec.filename = pyRsplitLast '/' (pyRsplitBase '/' key))) ∧
    (∀ (bucket : String) (now limit : Nat) (jobs : Jobs) (obj : S3Obj) (rest : List S3Obj),
        pyEndsWith obj.key "/meta.json" = false ∨ obj.body = BodyParse.falsy →
        list_existing_transcriptions bucket now (obj :: rest) limit jobs
          = list_existing_transcriptions bucket now rest limit jobs) ∧
    (∀ (bucket : String) (now limit : Nat) (jobs : Jobs) (key : String)
        (lm : Option Nat) (rest : List S3Obj), pyEndsWith key "/meta.json" = true →
        list_existing_transcriptions bucket now
            (⟨key, BodyParse.truthyNonDict, lm⟩ :: rest) limit jobs
          = (jobs, true)) ∧
    (∀ (bucket : String) (now : Nat) (jobs : Jobs) (key : String) (meta : MetaDict)
        (lm : Option Nat) (rest : List S3Obj), pyEndsWith key "/meta.json" = true →
        list_existing_transcriptions bucket now (⟨key, BodyParse.dict meta, lm⟩ :: rest) 1 jobs
          = list_existing_transcriptions bucket now [⟨key, BodyParse.dict meta, lm⟩] 1 jobs) := by
  refine ⟨?_, ?_, ?_, ?_⟩
  · intro bucket now limit jobs key meta lm h
    refine ⟨(match meta.job_id with
        | some j => if j = "" then pyRsplitLast '_' (pyRsplitBase '/' key) else j
        | none => pyRsplitLast '_' (pyRsplitBase '/' key)),
      { filename := (match meta.filename with
          | some f => if f = "" then pyRsplitLast '/' (pyRsplitBase '/' key) else f
          | none => pyRsplitLast '/' (pyRsplitBase '/' key)),
        bucket := meta.source_bucket.getD bucket,
        key := meta.source_key.getD "",
        status := meta.status.getD "COMPLETED",
        output := none,
        created_at := (match meta.created_at with
          | some t => if t = 0 then (match lm with | some x => x | none => now) else t
          | none => match lm with | some x => x | none => now),
        saved_paths := some (_saved_paths_from_base_dir bucket (pyRsplitBase '/' key)
          (match meta.filename with
            | some f => if f = "" then pyRsplitLast '/' (pyRsplitBase '/' key) else f
            | none => pyRsplitLast '/' (pyRsplitBase '/' key))),
        pending_options := none }, ?_, rfl, rfl, rfl, ?_, ?_, ?_, ?_⟩
    · by_cases hl : limit ≤ 1 <;>
        simp [list_existing_transcriptions, bootstrapGo, h, hl]
    · intro j hj hne
      simp [hj, hne]
    · rintro (hj | hj) <;> simp [hj]
    · intro f hf hne
      simp [hf, hne]
    · rintro (hf | hf) <;> simp [hf]
  · intro bucket now limit jobs obj rest h
    rcases h with h | h
    · simp [list_existing_transcriptions, bootstrapGo, h]
    · by_cases he : pyEndsWith obj.key "/meta.json" <;>
        simp [list_existing_transcriptions, bootstrapGo, h, he]
  · intro bucket now limit jobs key lm rest h
    simp [list_existing_transcriptions, bootstrapGo, h]
  · intro bucket now jobs key meta lm rest h
    simp [list_existing_transcriptions, bootstrapGo, h]

/-- C7 counterexample: a stored meta.json object whose body is parsable
JSON but a truthy non-dict is not skipped silently: the scan raises and
aborts, so the valid abc_123 entry listed after it is never inserted. -/
theorem C7_counterexample :
    list_existing_transcriptions "b" 9 [badObj, abcObj] 1000 [] = ([], true) ∧
    ((list_existing_transcriptions "b" 9 [badObj, abcObj] 1000 []).1).lookup "123" = none :=
  ⟨rfl, rfl⟩

/-- C1 counterexample: a record whose status is COMPLETED is polled; the
response carries status UNKNOWN; refresh_status_once changes the stored
status to UNKNOWN, so the terminal status is not preserved. -/
theorem C1_counterexample :
    (((refresh_status_once "b" "J1" (some ⟨some "UNKNOWN", none⟩)
        [("J1", recCompleted)] [] "ff" noFail).1).lookup "J1").map JobRec.status
      = some "UNKNOWN" ∧ ("UNKNOWN" : String) ≠ "COMPLETED" :=
  ⟨rfl, by decide⟩

/-- C1 witness: the overwrite characterization applied to the concrete
COMPLETED record polled as UNKNOWN. -/
theorem C1_status_always_overwritten_witness :
    ∃ r2, ((refresh_status_once "b" "J1" (some ⟨some "UNKNOWN", none⟩)
        [("J1", recCompleted)] [] "ff" noFail).1).lookup "J1" = some r2
      ∧ r2.status = "UNKNOWN" :=
  C1_status_always_overwritten "b" "J1" ⟨some "UNKNOWN", none⟩
    [("J1", recCompleted)] [] "ff" noFail recCompleted rfl

/-- C3 counterexample: with the output.json write raising, the srt and txt
writes are not attempted in that invocation even though output.srt is a
non-blank string, refuting that the remaining writes are still attempted;
meta.json stays written and the record is unchanged apart from the poll. -/
theorem C3_counterexample :
    ((refresh_status_once "b" "J1"
        (some ⟨some "COMPLETED", some (PyVal.vdict [("srt", PyVal.vstr "x"), ("txt", PyVal.vstr "y")])⟩)
        [("J1", recPending)] [] "ff" failOut).2.1).map Prod.fst
      = ["Srt-model/transcriptions/a_J1/meta.json"] ∧
    pyStripTruthy "x" = true ∧
    (((refresh_status_once "b" "J1"
        (some ⟨some "COMPLETED", some (PyVal.vdict [("srt", PyVal.vstr "x"), ("txt", PyVal.vstr "y")])⟩)
        [("J1", recPending)] [] "ff" failOut).1).lookup "J1").map JobRec.saved_paths
      = some none ∧
    (((refresh_status_once "b" "J1"
        (some ⟨some "COMPLETED", some (PyVal.vdict [("srt", PyVal.vstr "x"), ("txt", PyVal.vstr "y")])⟩)
        [("J1", recPending)] [] "ff" failOut).1).lookup "J1").map JobRec.status
      = some "COMPLETED" :=
  ⟨rfl, by decide, rfl, rfl⟩

/-- C3 witness: the abort characterization applied to the concrete job
whose output.json write raises. -/
theorem C3_write_failure_aborts_rest_witness :
    ∃ m : Meta,
      (refresh_status_once "b" "J1"
          (some ⟨some "COMPLETED", some (PyVal.vdict [("srt", PyVal.vstr "x")])⟩)
          [("J1", recPending)] [] "ff" failOut).2.1
        = ("Srt-model/transcriptions/a_J1/meta.json", Body.metaJson m) :: [] ∧
      m.status = "COMPLETED" ∧
      (∃ r2, ((refresh_status_once "b" "J1"
          (some ⟨some "COMPLETED", some (PyVal.vdict [("srt", PyVal.vstr "x")])⟩)
          [("J1", recPending)] [] "ff" failOut).1).lookup "J1" = some r2
        ∧ r2.status = "COMPLETED" ∧ r2.saved_paths = recPending.saved_paths) ∧
      (refresh_status_once "b" "J1"
          (some ⟨some "COMPLETED", some (PyVal.vdict [("srt", PyVal.vstr "x")])⟩)
          [("J1", recPending)] [] "ff" failOut).2.2
        = some ⟨some "COMPLETED", some (PyVal.vdict [("srt", PyVal.vstr "x")])⟩ :=
  C3_write_failure_aborts_rest "b" "J1"
    ⟨some "COMPLETED", some (PyVal.vdict [("srt", PyVal.vstr "x")])⟩
    [("J1", recPending)] [] "ff" failOut recPending rfl rfl (Or.inl rfl)
    (by decide) (by decide)

/-- C4 counterexample: for output.txt = "é" the meta.json sizes field
holds the code point count 1, while the UTF-8 byte length is 2, so the
sizes are not byte lengths. -/
theorem C4_counterexample :
    ((save_transcription_assets "b" "J1" "a.mp3" recPending
        [("txt", PyVal.vstr "é")] [] "ff" noFail).1).head?
      = some ("Srt-model/transcriptions/a_J1/meta.json", Body.metaJson
          { job_id := "J1", filename := "a.mp3", created_at := 5, status := "QUEUED",
            source_bucket := "b", source_key := "k", options := [],
            txt_len := 1, srt_len := 0 }) ∧
    ("é" : String).utf8ByteSize = 2 ∧ (1 : Nat) ≠ 2 :=
  ⟨rfl, by decide, by decide⟩

/-- C4 witness: the sizes characterization applied to an ASCII output. -/
theorem C4_meta_sizes_witness :
    ∃ m : Meta, ((save_transcription_assets "b" "J1" "talk.mp3" recPending
        [("txt", PyVal.vstr "hi")] [] "aaaaaaaa" (fun _ => false)).1).head?
      = some (TRANSCRIPTIONS_DIR ++ _slugify_name "talk.mp3" "aaaaaaaa" ++ "_" ++ "J1" ++ "/meta.json",
          Body.metaJson m) ∧ m.txt_len = ("hi" : String).utf8ByteSize := by
  obtain ⟨m, h1, _h2, _h3, h4, _h5, _h6, _h7, _h8, _h9⟩ :=
    C4_meta_sizes "b" "J1" "talk.mp3" recPending [("txt", PyVal.vstr "hi")] [] "aaaaaaaa"
  exact ⟨m, h1, h4 "hi" rfl (by decide)⟩

/-- C6 counterexample: output.srt = " " is a non-empty string, yet no srt
artifact is written and the returned mapping has no srt entry, because the
code requires truthiness after stripping whitespace, not mere
non-emptiness. -/
theorem C6_counterexample :
    (save_transcription_assets "b" "J1" "a.mp3" recPending
        [("srt", PyVal.vstr " ")] [] "ff" noFail).2
      = some [("meta", "s3://b/Srt-model/transcriptions/a_J1/meta.json"),
              ("output_json", "s3://b/Srt-model/transcriptions/a_J1/output.json")] ∧
    (" " : String) ≠ "" :=
  ⟨rfl, by decide⟩

/-- C7 witness: the bootstrap characterization applied to the round-trip
example of the specification, together with the evaluated srt location, a
skipped corrupt entry, the abort on a truthy non-dict body, and the scan
limit cutting a second entry. -/
theorem C7_bootstrap_witness :
    (∃ jid rec, list_existing_transcriptions "b" 9 [abcObj] 1000 []
        = (mapSet [] jid rec, false)
      ∧ rec.output = none
      ∧ rec.saved_paths
          = some (_saved_paths_from_base_dir "b"
              (pyRsplitBase '/' "transcriptions/abc_123/meta.json") rec.filename)
      ∧ rec.status = metaAbc.status.getD "COMPLETED"
      ∧ (∀ j, metaAbc.job_id = some j → j ≠ "" → jid = j)
      ∧ (metaAbc.job_id = none ∨ metaAbc.job_id = some "" →
          jid = pyRsplitLast '_' (pyRsplitBase '/' "transcriptions/abc_123/meta.json"))
      ∧ (∀ f, metaAbc.filename = some f → f ≠ "" → rec.filename = f)
      ∧ (metaAbc.filename = none ∨ metaAbc.filename = some "" →
          rec.filename = pyRsplitLast '/' (pyRsplitBase '/' "transcriptions/abc_123/meta.json"))) ∧
    (((list_existing_transcriptions "b" 9 [abcObj] 1000 []).1).lookup "123").map
        (fun rec => rec.saved_paths.map (fun sp => sp.lookup "srt"))
      = some (some (some "s3://b/transcriptions/abc_123/abc.srt")) ∧
    list_existing_transcriptions "b" 9 (corruptObj :: [abcObj]) 1000 []
      = list_existing_transcriptions "b" 9 [abcObj] 1000 [] ∧
    list_existing_transcriptions "b" 9 (⟨"transcriptions/bad2_7/meta.json",
        BodyParse.truthyNonDict, none⟩ :: [abcObj]) 1000 [("J0", recCompleted)]
      = ([("J0", recCompleted)], true) ∧
    list_existing_transcriptions "b" 9 (abcObj :: [zzObj]) 1 []
      = list_existing_transcriptions "b" 9 [abcObj] 1 [] :=
  ⟨C7_bootstrap.1 "b" 9 1000 [] "transcriptions/abc_123/meta.json" metaAbc (some 3) (by decide),
   rfl,
   C7_bootstrap.2.1 "b" 9 1000 [] corruptObj [abcObj] (Or.inr rfl),
   C7_bootstrap.2.2.1 "b" 9 1000 [("J0", recCompleted)] "transcriptions/bad2_7/meta.json"
     none [abcObj] (by decide),
   C7_bootstrap.2.2.2 "b" 9 [] "transcriptions/abc_123/meta.json" metaAbc (some 3) [zzObj]
     (by decide)⟩

/-- C10 witness: the persist-on-terminal characterization applied to a
FAILED poll with no output field. -/
theorem C10_persist_on_terminal_witness :
    ∃ m : Meta,
      (refresh_status_once "b" "J1" (some ⟨some "FAILED", none⟩)
          [("J1", recPending)] [] "ff" (fun _ => false)).2.1
        = ("Srt-model/transcriptions/a_J1/output.json", Body.outputJson [])
          :: ("Srt-model/transcriptions/a_J1/meta.json", Body.metaJson m) :: [] ∧
      m.txt_len = 0 ∧ m.srt_len = 0 ∧
      (∃ r2, ((refresh_status_once "b" "J1" (some ⟨some "FAILED", none⟩)
          [("J1", recPending)] [] "ff" (fun _ => false)).1).lookup "J1" = some r2
        ∧ r2.saved_paths = some
            [("meta", "s3://b/Srt-model/transcriptions/a_J1/meta.json"),
             ("output_json", "s3://b/Srt-model/transcriptions/a_J1/output.json")]
        ∧ savedTruthy r2.saved_paths = true) ∧
      (∀ data2 fresh2 fails2,
          (refresh_status_once "b" "J1" (some data2)
            (refresh_status_once "b" "J1" (some ⟨some "FAILED", none⟩)
              [("J1", recPending)] [] "ff" (fun _ => false)).1
            (refresh_status_once "b" "J1" (some ⟨some "FAILED", none⟩)
              [("J1", recPending)] [] "ff" (fun _ => false)).2.1
            fresh2 fails2).2.1
          = (refresh_status_once "b" "J1" (some ⟨some "FAILED", none⟩)
              [("J1", recPending)] [] "ff" (fun _ => false)).2.1) :=
  C10_persist_on_terminal "b" "J1" ⟨some "FAILED", none⟩ [("J1", recPending)] [] "ff"
    recPending rfl rfl rfl (Or.inr (Or.inl rfl))

end SrtApp
